import Mathlib

/-!
Shallow embedding of the `chattermouth` package: the context-propagation core
(`chattermouth/core.py`), the Slack conversation demultiplexer
(`chattermouth/slack/__init__.py`) and the yes/no classifier front end
(`chattermouth/nlp/__init__.py`).

Conventions of the embedding:
* Python dicts used as maps (`self._interactions` and its inner
  `WeakValueDictionary`) are association lists over `String` keys.
* Mutable `SlackInteractionContext` objects are kept in a store
  (`FactoryState.contexts : List SlackInteractionContext`) and referenced by
  index, so that the two-level lookup table and the queue/set mutations share
  one object, as in Python.  Garbage collection of weakly referenced contexts
  is not modelled: in every scenario considered here the contexts stay
  reachable, where the weak map behaves exactly like a strong one.
* `await queue.get()` with an empty queue would suspend forever; fallible
  evaluation (a `KeyError` on a missing dict field, suspension with no
  producer) is modelled with `Option`.
* Python `float` confidences are modelled as rationals: every claim is about
  the comparison logic of the branches, not about rounding.
* `async` methods never run concurrently inside one claim scenario, and the
  `asyncio.Lock` protected sections contain no suspension point that the
  claims exercise, so methods are modelled as pure state transformers.
-/

namespace Chattermouth

/-! ## Errors

Python exceptions that the embedded code can raise.  `assertionError` models a
failed `assert` statement; `noClassification` models
`chattermouth.nlp.NoClassificationError(text, classifications)`, which stores
the offending text in its `text` attribute. -/

/-- Categories for text classification (`chattermouth/nlp/categories.py`). -/
inductive Category
  | YES
  | NO
  | QUESTION
deriving DecidableEq

/-- The `value` of a `Category` enum member. -/
def Category.value : Category → String
  | .YES => "YES"
  | .NO => "NO"
  | .QUESTION => "QUESTION"

/-- Python exceptions raised by the embedded fragments. -/
inductive PyError
  | assertionError
  | noClassification (text : String) (classifications : List Category)
deriving DecidableEq

/-! ## `chattermouth/nlp/__init__.py` — `classify_yes_no`

The spaCy pipeline is the opaque external collaborator: it is passed in as a
function `pipeline : String → String → ℚ` mapping a text to its `doc.cats`
mapping (keyed by the category `value` strings).  The source is

```
assert 0.0 < threshold < 1.0
doc = spacy_pipeline()(text)
if doc.cats[Category.YES.value] >= threshold and doc.cats[Category.YES.value] >= doc.cats[Category.NO.value]:
    return True
elif doc.cats[Category.NO.value] >= threshold:
    return False
raise NoClassificationError(str(text), [Category.YES, Category.NO])
```
-/

/-- Embedding of `classify_yes_no(text, threshold)`; the first argument is the
spaCy pipeline (text ↦ `doc.cats` mapping). -/
def classify_yes_no (pipeline : String → String → ℚ) (text : String) (threshold : ℚ) :
    Except PyError Bool :=
  if 0 < threshold ∧ threshold < 1 then
    let cats := pipeline text
    if cats Category.YES.value ≥ threshold ∧ cats Category.YES.value ≥ cats Category.NO.value then
      Except.ok true
    else if cats Category.NO.value ≥ threshold then
      Except.ok false
    else
      Except.error (PyError.noClassification text [Category.YES, Category.NO])
  else
    Except.error PyError.assertionError

/-! ## `chattermouth/core.py` — context propagation registry

`_context` is a `ContextVar[Optional[AbstractInteractionContext]]`.  Its value
is threaded explicitly: each function takes the current value of the variable
(`cur : Option α`, where `α` stands for `AbstractInteractionContext`). -/

/-- Embedding of `get_interaction_context()`: returns `_context.get()`. -/
def get_interaction_context {α : Type} (cur : Option α) : Option α :=
  cur

/-- Embedding of `interaction_context()`:

```
context = get_interaction_context()
assert context is not None
return context
```
-/
def interaction_context {α : Type} (cur : Option α) : Except PyError α :=
  match get_interaction_context cur with
  | none => Except.error PyError.assertionError
  | some context => Except.ok context

/-- Embedding of the generator-based context manager

```
@contextmanager
def enter_interaction_context(context = None):
    token = _context.set(context)
    yield
    _context.reset(token)
```

`cur` is the value of `_context` on entry; `token` therefore carries `cur`
(`ContextVar.set` returns a token holding the previous value, and
`ContextVar.reset(token)` restores that held value).  The body of the `with`
statement is `body`, applied to the variable's value after the `set`; it
returns `Except.ok v` (normal completion with `_context` finally holding `v`)
or `Except.error v` (it raised with `_context` holding `v`).  Per the
`contextlib` protocol, when the body raises, `__exit__` throws the exception
into the generator at the `yield`; there is no `try/finally` around the
`yield`, so the generator unwinds without ever executing
`_context.reset(token)` and the exception propagates.  The result carries the
value `_context` holds after the `with` statement: the token's saved value on
normal exit, the raise-time value when the exception escapes. -/
def enter_interaction_context {α : Type} (cur : Option α) (context : Option α)
    (body : Option α → Except (Option α) (Option α)) : Except (Option α) (Option α) :=
  let token := cur
  match body context with
  | Except.ok _ => Except.ok token
  | Except.error v => Except.error v

/-! ## `chattermouth/core.py` — `Message` object semantics

`class Message` declares `user` and `content` and defines `__str__`
(returning `content`) and `__len__`; it defines no `__eq__`, so `==` between
two `Message` objects falls back to `object.__eq__`, which compares object
identity.  The embedding makes the identity explicit: `oid` is the Python
object id of the message and `user_oid` that of its `user` object. -/

/-- A `chattermouth.core.Message` object: identity plus attributes. -/
structure MessageObj where
  oid : Nat
  user_oid : Nat
  content : String
deriving DecidableEq

/-- Python `==` on two `Message` objects (no `__eq__` is defined, so this is
`object.__eq__`: object identity). -/
def MessageObj.py_eq (a b : MessageObj) : Bool :=
  a.oid == b.oid

/-- Python `str()` of a `Message`: `__str__` returns `self.content`. -/
def MessageObj.py_str (a : MessageObj) : String :=
  a.content

/-- Python `len()` of a `Message`: `__len__` returns `len(self.content)`. -/
def MessageObj.py_len (a : MessageObj) : Nat :=
  a.content.length

/-! ## `chattermouth/slack/__init__.py` — events and contexts -/

/-- The nested `previous_message` payload of a `message_deleted` event; the
demultiplexer reads its `user`, and `thread_ts` via `.get`. -/
structure PrevMessage where
  user : String
  ts : String
  thread_ts : Option String
deriving DecidableEq

/-- An inbound Slack RTM `message` event, with the fields the code reads.
`thread_ts`, `subtype`, `text`, `previous_message` and `deleted_ts` are read
with `.get` or only on some paths, so they are optional; `user`, `ts` and
`channel` are read unconditionally on the paths the claims exercise. -/
structure Event where
  user : String
  ts : String
  thread_ts : Option String
  subtype : Option String
  text : Option String
  channel : String
  previous_message : Option PrevMessage
  deleted_ts : Option String
deriving DecidableEq

/-- A `SlackUserInfo`: only the user id matters to the claims (the web client
handle and the lazily cached profile are not read by the embedded paths). -/
structure SlackUserInfo where
  id : String
deriving DecidableEq

/-- A `SlackMessage` value as produced by `_create_message`: the context's
`SlackUserInfo` and the event's `text`. -/
structure SlackMessage where
  user : SlackUserInfo
  content : String
deriving DecidableEq

/-- A `SlackInteractionContext` object: `ts`, `thread_ts`, `channel`, `user`,
the unbounded FIFO `message_queue` (head = front), and the
`deleted_message` set.  The `asyncio.Lock` serialises `tell` against the
check-and-skip step of `listen`; in the sequential scenarios of the claims the
protected sections run atomically anyway, so the lock has no residue in the
state. -/
structure SlackInteractionContext where
  ts : String
  thread_ts : String
  channel : String
  user : SlackUserInfo
  message_queue : List Event
  deleted_message : Finset String
deriving DecidableEq

/-- Python `data.get("thread_ts") or self.ts`: an absent *or falsy* (empty
string) `thread_ts` falls back to `ts`. -/
def orFallback (t : Option String) (ts : String) : String :=
  match t with
  | some s => if s = "" then ts else s
  | none => ts

/-- Embedding of `SlackInteractionContext.__init__(web_client, data)`:

```
self.ts = data["ts"]
self.thread_ts = data.get("thread_ts") or self.ts
self.channel = data["channel"]
self.user = SlackUserInfo(web_client, data["user"])
self.message_queue = asyncio.Queue(); self.message_queue.put_nowait(data)
self.deleted_message = set()
```
-/
def SlackInteractionContext.init (data : Event) : SlackInteractionContext :=
  { ts := data.ts
    thread_ts := orFallback data.thread_ts data.ts
    channel := data.channel
    user := ⟨data.user⟩
    message_queue := [data]
    deleted_message := ∅ }

/-- Embedding of `_create_message(data)`: `SlackMessage(user=self.user,
content=data["text"])`; `none` is the `KeyError` on a missing `text`. -/
def SlackInteractionContext.create_message (ctx : SlackInteractionContext) (data : Event) :
    Option SlackMessage :=
  data.text.map fun t => ⟨ctx.user, t⟩

/-- Embedding of `tell(message)`: under the send lock, the
`chat_postMessage` RPC is performed and the `ts` of the message it reports
back (`result["message"]["ts"]`, here the parameter `rpc_ts`, supplied by the
opaque platform collaborator) is added to `deleted_message`. -/
def SlackInteractionContext.tell (ctx : SlackInteractionContext) (_message : String)
    (rpc_ts : String) : SlackInteractionContext :=
  { ctx with deleted_message := insert rpc_ts ctx.deleted_message }

/-- The loop of `listen()`, acting on the queue and the `deleted_message`
set: dequeue an event; if its `ts` is in the set, remove the `ts` and
continue; otherwise build the `SlackMessage`.  Returns the message together
with the remaining queue and the updated set; `none` when the queue runs dry
(the Python coroutine would suspend in `queue.get()`) or on a `KeyError` from
a missing `text`. -/
def listenLoop (user : SlackUserInfo) :
    List Event → Finset String → Option (SlackMessage × List Event × Finset String)
  | [], _ => none
  | data :: rest, deleted =>
    if data.ts ∈ deleted then
      listenLoop user rest (deleted.erase data.ts)
    else
      data.text.map fun t => (⟨user, t⟩, rest, deleted)

/-- Embedding of `listen()` as a state transformer on the context. -/
def SlackInteractionContext.listen (ctx : SlackInteractionContext) :
    Option (SlackMessage × SlackInteractionContext) :=
  (listenLoop ctx.user ctx.message_queue ctx.deleted_message).map fun r =>
    (r.1, { ctx with message_queue := r.2.1, deleted_message := r.2.2 })

/-- The messages produced by calling `listen` over and over on a context until
its queue runs dry, in order (see `drain_eq_listen` below for the proof that
this is exactly the iteration of `listen`). -/
def drainLoop (user : SlackUserInfo) : List Event → Finset String → List SlackMessage
  | [], _ => []
  | data :: rest, deleted =>
    if data.ts ∈ deleted then
      drainLoop user rest (deleted.erase data.ts)
    else
      match data.text with
      | some t => ⟨user, t⟩ :: drainLoop user rest deleted
      | none => []

/-- All messages successive `listen` calls on `ctx` return, in order. -/
def SlackInteractionContext.drain (ctx : SlackInteractionContext) : List SlackMessage :=
  drainLoop ctx.user ctx.message_queue ctx.deleted_message

/-! ## `chattermouth/slack/__init__.py` — `SlackInteractionFactory` -/

/-- Association-list lookup for a Python dict keyed by strings. -/
def lookupA {α : Type} : List (String × α) → String → Option α
  | [], _ => none
  | (k, v) :: rest, key => if k = key then some v else lookupA rest key

/-- Association-list store for a Python dict keyed by strings
(`d[key] = v`): replaces the binding if present, appends it otherwise. -/
def setA {α : Type} : List (String × α) → String → α → List (String × α)
  | [], key, v => [(key, v)]
  | (k, w) :: rest, key, v =>
    if k = key then (key, v) :: rest else (k, w) :: setA rest key v

/-- Update the context object at index `i` of the store in place. -/
def modifyIdx (f : SlackInteractionContext → SlackInteractionContext) :
    Nat → List SlackInteractionContext → List SlackInteractionContext
  | _, [] => []
  | 0, c :: cs => f c :: cs
  | n + 1, c :: cs => c :: modifyIdx f n cs

/-- The mutable state of a `SlackInteractionFactory`:
`interactions` is `self._interactions` (user id → conversation id → context,
contexts referred to by their index into `contexts`), `contexts` is the store
of live `SlackInteractionContext` objects, and `callback_log` records, in
order, the context index for each invocation of the user-supplied discovery
callback. -/
structure FactoryState where
  interactions : List (String × List (String × Nat))
  contexts : List SlackInteractionContext
  callback_log : List Nat
deriving DecidableEq

/-- The factory state right after `__init__`: `self._interactions = {}`. -/
def initState : FactoryState :=
  { interactions := [], contexts := [], callback_log := [] }

/-- Embedding of `_get_interaction(user, ts)`:

```
if user in self._interactions:
    interaction_map = self._interactions[user]
else:
    interaction_map = weakref.WeakValueDictionary()
    self._interactions[user] = interaction_map
return interaction_map.get(ts)
```

Returns the (possibly mutated) state together with the lookup result. -/
def get_interaction (st : FactoryState) (user : String) (ts : String) :
    FactoryState × Option Nat :=
  match lookupA st.interactions user with
  | some interaction_map => (st, lookupA interaction_map ts)
  | none => ({ st with interactions := setA st.interactions user [] }, none)

/-- Embedding of `_on_message(web_client, data, **payload)`:

```
subtype = data.get("subtype")
if subtype == "message_deleted":
    interaction = self._get_interaction(
        data["previous_message"]["user"], data["previous_message"].get("thread_ts", data["ts"])
    )
    if interaction:
        interaction.deleted_message.add(data["deleted_ts"])

if subtype is None:
    thread = data.get("thread_ts", data["ts"])
    user = data["user"]
    interaction = self._get_interaction(user, thread)
    if interaction is not None:
        await interaction.message_queue.put(data)
        return

    context = SlackInteractionContext(web_client=web_client, data=data)
    self._interactions[user][thread] = context
    with enter_interaction_context(context):
        callback_result = self.callback()
        if asyncio.iscoroutine(callback_result):
            asyncio.create_task(callback_result)
```

Note the deletion branch's fallback lookup key is `data["ts"]` — the
`message_deleted` event's own `ts` — not `previous_message["ts"]`.  `none`
models a `KeyError` on a missing required field.  An invocation of the
callback is recorded in `callback_log`; the unbounded `queue.put` never
suspends. -/
def on_message (st : FactoryState) (data : Event) : Option FactoryState :=
  let step1 : Option FactoryState :=
    if data.subtype = some "message_deleted" then
      match data.previous_message with
      | none => none
      | some prev =>
        let r := get_interaction st prev.user (prev.thread_ts.getD data.ts)
        match r.2 with
        | some i =>
          match data.deleted_ts with
          | none => none
          | some dts =>
            some { r.1 with
              contexts := modifyIdx
                (fun c => { c with deleted_message := insert dts c.deleted_message }) i
                r.1.contexts }
        | none => some r.1
    else
      some st
  match step1 with
  | none => none
  | some st1 =>
    if data.subtype = none then
      let thread := data.thread_ts.getD data.ts
      let user := data.user
      let r := get_interaction st1 user thread
      match r.2 with
      | some i =>
        some { r.1 with
          contexts := modifyIdx
            (fun c => { c with message_queue := c.message_queue ++ [data] }) i r.1.contexts }
      | none =>
        let idx := r.1.contexts.length
        let context := SlackInteractionContext.init data
        some { r.1 with
          contexts := r.1.contexts ++ [context]
          interactions := setA r.1.interactions user
            (setA ((lookupA r.1.interactions user).getD []) thread idx)
          callback_log := r.1.callback_log ++ [idx] }
    else
      some st1

/-- Feed a list of inbound events through `_on_message`, in order. -/
def process (st : FactoryState) : List Event → Option FactoryState
  | [] => some st
  | e :: es =>
    match on_message st e with
    | none => none
    | some st1 => process st1 es

/-! ## Concrete fixtures used by witnesses and counterexamples -/

/-- An ordinary first-contact event: user `"U"`, ts `"1.0"`, no thread. -/
def e0W : Event := ⟨"U", "1.0", none, none, some "hi", "C", none, none⟩

/-- A follow-up event of the same conversation (`thread_ts = "1.0"`). -/
def e1W : Event := ⟨"U", "2.0", some "1.0", none, some "there", "C", none, none⟩

/-- The context created by the demultiplexer for `e0W`. -/
def ctx0S : SlackInteractionContext := SlackInteractionContext.init e0W

/-- A factory state holding `ctx0S` registered under user `"U"`,
conversation id `"1.0"` (exactly the state `process initState [e0W]`
produces). -/
def stC : FactoryState := ⟨[("U", [("1.0", 0)])], [ctx0S], [0]⟩

/-- A well-formed `message_deleted` event for the unthreaded message
`"1.0"` of user `"U"`: `previous_message` has no `thread_ts`, and the outer
`ts` (`"200.0"`) is the deletion event's own timestamp. -/
def delE : Event :=
  ⟨"U", "200.0", none, some "message_deleted", none, "C", some ⟨"U", "1.0", none⟩, some "1.0"⟩

/-- A well-formed `message_deleted` event whose `previous_message` belongs to
user `"U"` in thread `"1.0"` (here `thread_ts` is present, so the lookup key
is the intended one). -/
def delE5 : Event :=
  ⟨"UX", "200.0", none, some "message_deleted", none, "C", some ⟨"U", "1.0", some "1.0"⟩,
    some "1.0"⟩

/-- A concrete classifier: high YES confidence, low NO confidence, for any
text. -/
def pW : String → String → ℚ := fun _ cat =>
  if cat = "YES" then 9 / 10 else if cat = "NO" then 1 / 20 else 0

/-- A context whose owner has consumed its whole queue (as after the first
`listen`), used for the echo-suppression scenario. -/
def ctxE : SlackInteractionContext := ⟨"1.0", "1.0", "C", ⟨"U"⟩, [], ∅⟩

/-- The platform echoing the bot's own sent message back as an inbound
event: its `ts` is the `ts` the `chat_postMessage` RPC reported. -/
def eEcho1 : Event := ⟨"B", "5.0", some "1.0", none, some "hello", "C", none, none⟩

/-- A second inbound event carrying the identical event id `"5.0"`. -/
def eEcho2 : Event := ⟨"B", "5.0", some "1.0", none, some "hello", "C", none, none⟩

/-! ## Supporting lemmas -/

/-- `drainLoop` agrees step by step with `listenLoop`: the head of the drained
list is exactly what one `listen` returns, and the tail is the drain of the
state `listen` leaves behind. -/
theorem drainLoop_eq_listenLoop (user : SlackUserInfo) (q : List Event) :
    ∀ d : Finset String,
      drainLoop user q d =
        match listenLoop user q d with
        | none => []
        | some r => r.1 :: drainLoop user r.2.1 r.2.2 := by
  induction q with
  | nil => intro d; rfl
  | cons data rest ih =>
    intro d
    by_cases h : data.ts ∈ d
    · simp only [drainLoop, listenLoop, if_pos h]
      exact ih (d.erase data.ts)
    · cases ht : data.text with
      | none => simp [drainLoop, listenLoop, if_neg h, ht]
      | some t => simp [drainLoop, listenLoop, if_neg h, ht]

/-- `drain` is the iteration of `listen`: it returns the message of one
`listen` call followed by the drain of the context that call leaves
behind. -/
theorem drain_eq_listen (ctx : SlackInteractionContext) :
    ctx.drain =
      match ctx.listen with
      | none => []
      | some mc => mc.1 :: mc.2.drain := by
  unfold SlackInteractionContext.drain SlackInteractionContext.listen
  rw [drainLoop_eq_listenLoop]
  cases listenLoop ctx.user ctx.message_queue ctx.deleted_message with
  | none => rfl
  | some r => rfl

/-- When no queued event id is in the pending-deletion set and every event
has a `text`, successive `listen` calls return one message per queued event,
in queue order. -/
theorem drainLoop_no_skip (user : SlackUserInfo) :
    ∀ (q : List Event) (d : Finset String),
      (∀ e ∈ q, (e.text).isSome) → (∀ e ∈ q, e.ts ∉ d) →
      drainLoop user q d = q.map fun e => ⟨user, e.text.getD ""⟩
  | [], _, _, _ => rfl
  | data :: rest, d, htext, hd => by
    have h1 : data.ts ∉ d := hd data (List.mem_cons_self data rest)
    obtain ⟨t, ht⟩ := Option.isSome_iff_exists.mp (htext data (List.mem_cons_self data rest))
    have ihe := drainLoop_no_skip user rest d
      (fun e he => htext e (List.mem_cons_of_mem data he))
      (fun e he => hd e (List.mem_cons_of_mem data he))
    simp [drainLoop, h1, ht, ihe]

/-- An ordinary event for a (user, conversation) pair whose context is
registered at index 0 is enqueued onto that context's queue; nothing else
changes and no callback fires. -/
theorem on_message_enqueue (u k : String) (ctx : SlackInteractionContext) (log : List Nat)
    (e : Event) (hs : e.subtype = none) (hu : e.user = u) (hk : e.thread_ts.getD e.ts = k) :
    on_message ⟨[(u, [(k, 0)])], [ctx], log⟩ e =
      some ⟨[(u, [(k, 0)])], [{ ctx with message_queue := ctx.message_queue ++ [e] }], log⟩ := by
  simp [on_message, hs, hu, hk, get_interaction, lookupA, modifyIdx]

/-- Processing a whole sequence of ordinary events of one registered
(user, conversation) pair appends them all to the context's queue, in
arrival order, without further callback invocations. -/
theorem process_same_pair (u k : String) (log : List Nat) :
    ∀ (rest : List Event) (ctx : SlackInteractionContext),
      (∀ e ∈ rest, e.subtype = none) → (∀ e ∈ rest, e.user = u) →
      (∀ e ∈ rest, e.thread_ts.getD e.ts = k) →
      process ⟨[(u, [(k, 0)])], [ctx], log⟩ rest =
        some ⟨[(u, [(k, 0)])], [{ ctx with message_queue := ctx.message_queue ++ rest }], log⟩
  | [], ctx, _, _, _ => by simp [process]
  | e :: rest, ctx, hs, hu, hk => by
    have h1 := on_message_enqueue u k ctx log e
      (hs e (List.mem_cons_self e rest)) (hu e (List.mem_cons_self e rest))
      (hk e (List.mem_cons_self e rest))
    have h2 := process_same_pair u k log rest { ctx with message_queue := ctx.message_queue ++ [e] }
      (fun x hx => hs x (List.mem_cons_of_mem e hx))
      (fun x hx => hu x (List.mem_cons_of_mem e hx))
      (fun x hx => hk x (List.mem_cons_of_mem e hx))
    simp only [process, h1, h2]
    simp [List.append_assoc]

/-- Entering the interaction-context scope restores the prior value whenever
the enclosed block completes normally (the token saved by `set` is replayed
by `reset`). -/
theorem enter_interaction_context_restores_on_ok {α : Type} (cur context v : Option α)
    (body : Option α → Except (Option α) (Option α)) (h : body context = Except.ok v) :
    enter_interaction_context cur context body = Except.ok cur := by
  simp [enter_interaction_context, h]

/-! ## Claims -/

/-- C1: for every nonempty sequence of inbound ordinary events (`subtype`
absent) sharing the (user, conversation-id) pair `(u, k)`, processing them
through `_on_message` invokes the discovery callback exactly once — on the
first event, for the context created for the pair (`callback_log = [0]`) —
and every subsequent event of the pair is enqueued onto that context's
inbound queue in arrival order, so that successive `listen` calls on the
context return the events' messages in the same order (`drain`, which by
`drain_eq_listen` is exactly the iteration of `listen`). -/
theorem demux_single_pair (u k : String) (e0 : Event) (rest : List Event)
    (hs : ∀ e ∈ e0 :: rest, e.subtype = none)
    (hu : ∀ e ∈ e0 :: rest, e.user = u)
    (hk : ∀ e ∈ e0 :: rest, e.thread_ts.getD e.ts = k)
    (htext : ∀ e ∈ e0 :: rest, (e.text).isSome) :
    process initState (e0 :: rest) =
      some ⟨[(u, [(k, 0)])],
            [{ SlackInteractionContext.init e0 with message_queue := e0 :: rest }], [0]⟩ ∧
    SlackInteractionContext.drain
        { SlackInteractionContext.init e0 with message_queue := e0 :: rest } =
      (e0 :: rest).map fun e => ⟨⟨u⟩, e.text.getD ""⟩ := by
  have hs0 := hs e0 (List.mem_cons_self e0 rest)
  have hu0 := hu e0 (List.mem_cons_self e0 rest)
  have hk0 := hk e0 (List.mem_cons_self e0 rest)
  constructor
  · have hfirst : on_message initState e0 =
        some ⟨[(u, [(k, 0)])], [SlackInteractionContext.init e0], [0]⟩ := by
      simp [on_message, get_interaction, lookupA, setA, initState, hs0, hu0, hk0]
    have h2 := process_same_pair u k [0] rest (SlackInteractionContext.init e0)
      (fun x hx => hs x (List.mem_cons_of_mem e0 hx))
      (fun x hx => hu x (List.mem_cons_of_mem e0 hx))
      (fun x hx => hk x (List.mem_cons_of_mem e0 hx))
    simp only [process, hfirst, h2]
    simp [SlackInteractionContext.init]
  · have hd := drainLoop_no_skip ⟨e0.user⟩ (e0 :: rest) ∅ htext
      (fun e _ => Finset.not_mem_empty _)
    unfold SlackInteractionContext.drain
    simp only [SlackInteractionContext.init]
    rw [hu0] at hd
    rw [hu0]
    exact hd

/-- Witness for C1: the two-event conversation `[e0W, e1W]` of the pair
(`"U"`, `"1.0"`), processed from the initial factory state. -/
theorem demux_single_pair_witness :
    process initState [e0W, e1W] =
      some ⟨[("U", [("1.0", 0)])],
            [{ SlackInteractionContext.init e0W with message_queue := [e0W, e1W] }], [0]⟩ ∧
    SlackInteractionContext.drain
        { SlackInteractionContext.init e0W with message_queue := [e0W, e1W] } =
      [⟨⟨"U"⟩, "hi"⟩, ⟨⟨"U"⟩, "there"⟩] := by
  have h := demux_single_pair "U" "1.0" e0W [e1W] (by decide) (by decide) (by decide) (by decide)
  exact ⟨h.1, h.2.trans (by decide)⟩

/-- C2 (divergence): the claim requires that after the enclosed block fails
with an error the previously current context is restored; the code at the
failing input — prior context `some "outer"`, scope entered with
`some "inner"`, body raising at once — leaves the *inner* context current:
`enter_interaction_context` has no `try/finally` around its `yield`, so
`_context.reset(token)` never runs on the error path and the result is
`Except.error (some "inner")`, not the `Except.error (some "outer")` the
claim demands. -/
theorem enter_interaction_context_no_restore_on_error :
    enter_interaction_context (some "outer") (some "inner")
        (fun c => Except.error c) = Except.error (some "inner") := rfl

/-- C3: `tell` records the event id returned by the `chat_postMessage` RPC
into the context's pending-deletion/self-sent set; a subsequent inbound
event carrying that id is skipped by `listen` — not returned — with the
marker removed in the same step, and exactly once: a second inbound event
with the identical id, dequeued while the marker is gone, is returned as a
message (the final state equals the pre-`tell` context `ctx`, marker
consumed, and the message delivered is built from the second echo). -/
theorem tell_echo_skipped_once (ctx : SlackInteractionContext) (txt rpc_ts s2 : String)
    (e1 e2 : Event) (hq : ctx.message_queue = []) (hnot : rpc_ts ∉ ctx.deleted_message)
    (h1 : e1.ts = rpc_ts) (h2 : e2.ts = rpc_ts) (ht2 : e2.text = some s2) :
    (ctx.tell txt rpc_ts).deleted_message = insert rpc_ts ctx.deleted_message ∧
    SlackInteractionContext.listen
        { ctx.tell txt rpc_ts with
          message_queue := (ctx.tell txt rpc_ts).message_queue ++ [e1, e2] } =
      some (⟨ctx.user, s2⟩, ctx) := by
  obtain ⟨cts, ctts, cch, cu, cq, cd⟩ := ctx
  dsimp only at hq hnot ⊢
  subst hq
  refine ⟨rfl, ?_⟩
  dsimp only [SlackInteractionContext.tell, SlackInteractionContext.listen, List.nil_append]
  rw [listenLoop, if_pos (by rw [h1]; exact Finset.mem_insert_self rpc_ts cd)]
  rw [h1, Finset.erase_insert hnot]
  rw [listenLoop, if_neg (by rw [h2]; exact hnot)]
  rw [ht2]
  rfl

/-- Witness for C3: a context with a drained queue sends a message whose RPC
reports ts `"5.0"`; the first echo with that ts is skipped and the marker
consumed, the second identical echo is delivered. -/
theorem tell_echo_skipped_once_witness :
    (ctxE.tell "hello" "5.0").deleted_message = insert "5.0" ctxE.deleted_message ∧
    SlackInteractionContext.listen
        { ctxE.tell "hello" "5.0" with
          message_queue := (ctxE.tell "hello" "5.0").message_queue ++ [eEcho1, eEcho2] } =
      some (⟨ctxE.user, "hello"⟩, ctxE) :=
  tell_echo_skipped_once ctxE "hello" "5.0" "hello" eEcho1 eEcho2 rfl (by decide) rfl rfl rfl

/-- C4 (divergence): in the state `stC` a context is registered under the
(user, conversation-id) pair of the deleted message — `("U", "1.0")`, where
`"1.0"` is `previous_message.ts` (no `thread_ts` present) — so under the
claim's lookup rule the deletion event `delE` must add its `deleted_ts` to
that context's pending-deletion set.  The code instead looks up
`previous_message.get("thread_ts", data["ts"])` — falling back to the
deletion event's *own* ts `"200.0"` — finds no context, and leaves the state
completely unchanged: the `deleted_ts` is never recorded. -/
theorem deletion_fallback_misses_context :
    (get_interaction stC "U" "1.0").2 = some 0 ∧
    ctx0S.deleted_message = ∅ ∧
    on_message stC delE = some stC := by
  decide

/-- C5 (amended): a well-formed deletion event for a (user, conversation)
pair with no context completes without error, creates no context, modifies
no queue or pending-deletion set (the context store is untouched), invokes
no callback — but the lookup structure is not always left unchanged: when
the first-level table has no entry for the user, `_get_interaction` inserts
an empty per-user map for it. -/
theorem deletion_no_context_noop (st : FactoryState) (e : Event) (prev : PrevMessage)
    (hsub : e.subtype = some "message_deleted")
    (hprev : e.previous_message = some prev)
    (hmiss : (get_interaction st prev.user (prev.thread_ts.getD e.ts)).2 = none) :
    on_message st e = some (get_interaction st prev.user (prev.thread_ts.getD e.ts)).1 ∧
    (get_interaction st prev.user (prev.thread_ts.getD e.ts)).1.contexts = st.contexts ∧
    (get_interaction st prev.user (prev.thread_ts.getD e.ts)).1.callback_log =
      st.callback_log ∧
    ((get_interaction st prev.user (prev.thread_ts.getD e.ts)).1.interactions =
        st.interactions ∨
      (get_interaction st prev.user (prev.thread_ts.getD e.ts)).1.interactions =
        setA st.interactions prev.user []) := by
  have hside : (get_interaction st prev.user (prev.thread_ts.getD e.ts)).1.contexts =
        st.contexts ∧
      (get_interaction st prev.user (prev.thread_ts.getD e.ts)).1.callback_log =
        st.callback_log ∧
      ((get_interaction st prev.user (prev.thread_ts.getD e.ts)).1.interactions =
          st.interactions ∨
        (get_interaction st prev.user (prev.thread_ts.getD e.ts)).1.interactions =
          setA st.interactions prev.user []) := by
    unfold get_interaction
    cases lookupA st.interactions prev.user with
    | some m => exact ⟨rfl, rfl, Or.inl rfl⟩
    | none => exact ⟨rfl, rfl, Or.inr rfl⟩
  refine ⟨?_, hside⟩
  simp [on_message, hsub, hprev, hmiss]

/-- Witness for C5: the deletion event `delE5` against the empty initial
state. -/
theorem deletion_no_context_noop_witness :
    on_message initState delE5 = some (get_interaction initState "U" "1.0").1 ∧
    (get_interaction initState "U" "1.0").1.contexts = initState.contexts ∧
    (get_interaction initState "U" "1.0").1.callback_log = initState.callback_log ∧
    ((get_interaction initState "U" "1.0").1.interactions = initState.interactions ∨
      (get_interaction initState "U" "1.0").1.interactions =
        setA initState.interactions "U" []) :=
  deletion_no_context_noop initState delE5 ⟨"U", "1.0", some "1.0"⟩ rfl rfl (by decide)

/-- Counterexample to C5 as stated: processing the well-formed deletion
event `delE5` (pair (`"U"`, `"1.0"`), no context anywhere) from the empty
initial state does *not* leave the demultiplexer's state unchanged — a new
(empty) per-user entry for `"U"` is created in the lookup structure. -/
theorem deletion_no_context_creates_entry :
    on_message initState delE5 = some ⟨[("U", [])], [], []⟩ ∧
    (⟨[("U", [])], [], []⟩ : FactoryState) ≠ initState := by
  decide

/-- C6: the hard accessor `interaction_context()` fails (with the
`AssertionError` that realises the spec's NotConfiguredError) exactly when
no interaction context is set, and returns the set context without error
otherwise. -/
theorem interaction_context_spec {α : Type} (cur : Option α) :
    (cur = none → interaction_context cur = Except.error PyError.assertionError) ∧
    (∀ c : α, cur = some c → interaction_context cur = Except.ok c) := by
  refine ⟨fun h => ?_, fun c h => ?_⟩ <;> subst h <;> rfl

/-- Witness for C6: the accessor at an unset and at a set context slot. -/
theorem interaction_context_spec_witness :
    interaction_context (none : Option Nat) = Except.error PyError.assertionError ∧
    interaction_context (some 7) = Except.ok 7 :=
  ⟨(interaction_context_spec (none : Option Nat)).1 rfl,
   (interaction_context_spec (some 7)).2 7 rfl⟩

/-- C7: for `0 < threshold < 1`, `classify_yes_no` returns `true` when the
YES confidence is at least the threshold and at least the NO confidence;
otherwise returns `false` when the NO confidence is at least the threshold
(with no requirement that NO ≥ YES); otherwise fails with a
`NoClassificationError` carrying the original text. -/
theorem classify_yes_no_cases (pipeline : String → String → ℚ) (text : String) (threshold : ℚ)
    (h0 : 0 < threshold) (h1 : threshold < 1) :
    (pipeline text Category.YES.value ≥ threshold ∧
        pipeline text Category.YES.value ≥ pipeline text Category.NO.value →
      classify_yes_no pipeline text threshold = Except.ok true) ∧
    (¬(pipeline text Category.YES.value ≥ threshold ∧
        pipeline text Category.YES.value ≥ pipeline text Category.NO.value) →
      pipeline text Category.NO.value ≥ threshold →
      classify_yes_no pipeline text threshold = Except.ok false) ∧
    (¬(pipeline text Category.YES.value ≥ threshold ∧
        pipeline text Category.YES.value ≥ pipeline text Category.NO.value) →
      ¬pipeline text Category.NO.value ≥ threshold →
      classify_yes_no pipeline text threshold =
        Except.error (PyError.noClassification text [Category.YES, Category.NO])) := by
  refine ⟨fun hy => ?_, fun hy hn => ?_, fun hy hn => ?_⟩ <;>
    simp only [classify_yes_no] <;> rw [if_pos ⟨h0, h1⟩]
  · rw [if_pos hy]
  · rw [if_neg hy, if_pos hn]
  · rw [if_neg hy, if_neg hn]

/-- Witness for C7: the high-YES classifier `pW` at threshold 3/4 classifies
as a yes. -/
theorem classify_yes_no_cases_witness :
    classify_yes_no pW "yeah" (3 / 4) = Except.ok true := by
  have h := classify_yes_no_cases pW "yeah" (3 / 4) (by norm_num) (by norm_num)
  have hY : pW "yeah" Category.YES.value = 9 / 10 := by
    simp [pW, Category.value]
  have hN : pW "yeah" Category.NO.value = 1 / 20 := by
    simp [pW, Category.value]
  exact h.1 (by rw [ge_iff_le, ge_iff_le, hY, hN]; norm_num)

/-- C8: a threshold outside the open interval (0, 1) — in particular exactly
0 or exactly 1 — is rejected with the caller contract error (the failed
`assert`) before any classification occurs: the result is the assertion
failure and does not depend on the classifier or the text at all. -/
theorem classify_yes_no_threshold_contract (pipeline pipe2 : String → String → ℚ)
    (text text2 : String) (threshold : ℚ) (h : ¬(0 < threshold ∧ threshold < 1)) :
    classify_yes_no pipeline text threshold = Except.error PyError.assertionError ∧
    classify_yes_no pipeline text threshold = classify_yes_no pipe2 text2 threshold := by
  constructor <;> simp [classify_yes_no, h]

/-- Witness for C8: threshold exactly 0 is rejected. -/
theorem classify_yes_no_threshold_contract_witness :
    classify_yes_no pW "x" 0 = Except.error PyError.assertionError ∧
    classify_yes_no pW "x" 0 = classify_yes_no pW "y" 0 :=
  classify_yes_no_threshold_contract pW pW "x" "y" 0 (by norm_num)

/-- Counterexample to C9 as stated: `Message` equality is not determined by
content — two messages with equal content `"hi"` but distinct object
identities compare unequal under Python `==` (no `__eq__` is defined, so
`object.__eq__`, identity, applies). -/
theorem message_eq_by_content_false :
    ¬ ∀ a b : MessageObj, a.content = b.content → a.py_eq b = true := by
  intro h
  have h2 := h ⟨0, 0, "hi"⟩ ⟨1, 1, "hi"⟩ rfl
  simp [MessageObj.py_eq] at h2

/-- C9 (amended): equality between `Message` values is Python object
identity (content equality is neither necessary nor sufficient), and a
`Message`'s string representation equals its content. -/
theorem message_eq_identity_and_str (a b : MessageObj) :
    (a.py_eq b = true ↔ a.oid = b.oid) ∧ a.py_str = a.content :=
  ⟨by simp [MessageObj.py_eq], rfl⟩

/-- C10: constructing a context from the conversation-initiating event
enqueues that event during construction, so the first `listen` on the new
context returns a message built from the initiating event's text and the
context's `UserInfo`. -/
theorem first_listen_initiating_event (e : Event) (s : String) (ht : e.text = some s) :
    (SlackInteractionContext.init e).message_queue = [e] ∧
    (SlackInteractionContext.init e).listen =
      some (⟨⟨e.user⟩, s⟩, { SlackInteractionContext.init e with message_queue := [] }) := by
  refine ⟨rfl, ?_⟩
  dsimp only [SlackInteractionContext.listen, SlackInteractionContext.init]
  rw [listenLoop, if_neg (Finset.not_mem_empty _)]
  rw [ht]
  rfl

/-- Witness for C10: the context created for `e0W` delivers `e0W`'s own text
on the first `listen`. -/
theorem first_listen_initiating_event_witness :
    (SlackInteractionContext.init e0W).message_queue = [e0W] ∧
    (SlackInteractionContext.init e0W).listen =
      some (⟨⟨"U"⟩, "hi"⟩, { SlackInteractionContext.init e0W with message_queue := [] }) :=
  first_listen_initiating_event e0W "hi" rfl

end Chattermouth
